import Mathlib

/-!
  Shallow embedding of the trade-orchestration / connection-resilience core of
  the gateway server (Express + gRPC proxy for RPC, Jito relay, Yellowstone
  streaming and Jupiter quoting).  Definitions are translated from the
  JavaScript source; theorems settle the frozen claims about that source.

  Wall-clock timestamps (`Date.now()`, ISO strings) are modelled as `Nat`
  where a claim depends on them and omitted where no claim does.  External
  network interactions are modelled by explicit environment/oracle values:
  each upstream call's outcome is a parameter of the embedded function.
-/

namespace Proxy

/-! ## Constants (source part_001, lines 40-60, 256-257) -/

/-- Jito tip accounts (for bundles) — the fixed pool of 5 tip accounts. -/
def JITO_TIP_ACCOUNTS : List String :=
  [ "96gYZGLnJYVFmbjzopPSU6QiEV5fGqZNyN9nmNhvrZU5"
  , "HFqU5x63VTqvQss8hp11i4wVV8bD44PvwucfZ2bU7gRe"
  , "Cw8CFyM9FkoMi7K7Crf6HNQqf4uEMzpKw6QNghXLvLkY"
  , "ADaUMid9yfUytqMBgopwjb2DTLSokTSzL1zt6iGPaS49"
  , "DfXygSm4jCyNCybVYYK6DwvWqjKee8pbDmJGcLWNDXjh" ]

/-- Jito block engine HTTP endpoints raced by the fan-out sender. -/
def JITO_BUNDLE_ENDPOINTS : List String :=
  [ "https://mainnet.block-engine.jito.wtf/api/v1/bundles"
  , "https://frankfurt.mainnet.block-engine.jito.wtf/api/v1/bundles"
  , "https://amsterdam.mainnet.block-engine.jito.wtf/api/v1/bundles"
  , "https://dublin.mainnet.block-engine.jito.wtf/api/v1/bundles"
  , "https://london.mainnet.block-engine.jito.wtf/api/v1/bundles"
  , "https://ny.mainnet.block-engine.jito.wtf/api/v1/bundles"
  , "https://singapore.mainnet.block-engine.jito.wtf/api/v1/bundles"
  , "https://tokyo.mainnet.block-engine.jito.wtf/api/v1/bundles"
  , "https://slc.mainnet.block-engine.jito.wtf/api/v1/bundles" ]

/-- How many Jito endpoints are hit in parallel. -/
def JITO_PARALLEL_SEND : Nat := 4

/-! ## Bundle-size validation (C2)

  POST /jito/bundle (part_001 lines 262-272): the request body's
  `transactions` field is `none` when missing or not an array (the JS
  `!transactions || !Array.isArray(transactions)` check).  The HTTP path
  checks only `transactions.length > 5`. -/

/-- Size validation of POST /jito/bundle: `some msg` means a 400 rejection
  before any network send, `none` means the request proceeds to the fan-out. -/
def jitoBundleValidation (transactions : Option (List String)) : Option String :=
  match transactions with
  | none => some "transactions array required"
  | some txs =>
    if txs.length > 5 then some "Max 5 transactions per bundle"
    else none

/-- Size validation of POST /grpc/jito/bundle (part_001 lines 567-581):
  additionally rejects the empty array. -/
def grpcJitoBundleValidation (transactions : Option (List String)) : Option String :=
  match transactions with
  | none => some "transactions array required (base64-encoded VersionedTransactions)"
  | some txs =>
    if txs.length = 0 then some "At least one transaction required"
    else if txs.length > 5 then some "Max 5 transactions per bundle"
    else none

/-! ## Fan-out race (C1)

  POST /jito/bundle (part_001 lines 283-311): the handler fires the bundle
  at the first `JITO_PARALLEL_SEND` endpoints, `await`s
  `Promise.allSettled` over all of them, then scans the settled results in
  endpoint order. -/

/-- The JSON-RPC response body an endpoint returns (`data` after
  `r.json()`): `error` is `some` when the relay reported an upstream error. -/
structure JitoResp where
  result : Option String
  error : Option String
  deriving Repr, DecidableEq

/-- One endpoint attempt as settled by `Promise.allSettled`: either
  fulfilled with a parsed body or rejected with a reason, plus the time at
  which that attempt settled. -/
structure Settled where
  outcome : Except String JitoResp
  time : Nat
  deriving Repr

/-- The handler's HTTP response: status code and either a relayed JSON body
  or an error message object. -/
inductive FanoutResp where
  | jsonBody (status : Nat) (data : JitoResp)
  | jsonError (status : Nat) (msg : String)
  deriving Repr, DecidableEq

instance : DecidableEq Settled := fun a b => by
  cases a with
  | mk o t =>
    cases b with
    | mk o' t' =>
      cases o <;> cases o' <;>
        first
          | (rename_i x y
             exact if h : x = y ∧ t = t' then isTrue (by simp [h.1, h.2])
               else isFalse (by intro hc; injection hc; rename_i h1 h2; cases h1; simp_all))
          | (apply isFalse; intro h; injection h; simp_all)

/-- The scan loop (lines 291-298): first fulfilled settled result whose
  body carries no upstream error. -/
def firstFulfilledNoError (rs : List Settled) : Option JitoResp :=
  rs.findSome? fun r =>
    match r.outcome with
    | .ok d => if d.error.isSome then none else some d
    | .error _ => none

/-- Embeds `results.map(r => fulfilled && r.value.data).find(Boolean)`
  (line 301): the first fulfilled body, error or not. -/
def firstFulfilledData (rs : List Settled) : Option JitoResp :=
  rs.findSome? fun r =>
    match r.outcome with
    | .ok d => some d
    | .error _ => none

/-- Embeds the `results.find` over rejected attempts (line 300): reason of
  the first rejected attempt. -/
def firstRejectedReason (rs : List Settled) : Option String :=
  rs.findSome? fun r =>
    match r.outcome with
    | .ok _ => none
    | .error e => some e

/-- The body the fan-out handler responds with, given the settled attempts
  of the raced endpoints (lines 291-306). -/
def fanoutResponse (rs : List Settled) : FanoutResp :=
  match firstFulfilledNoError rs with
  | some d => .jsonBody 200 d
  | none =>
    match firstFulfilledData rs with
    | some d =>
      if d.error.isSome then .jsonBody 200 d
      else .jsonError 503 ((firstRejectedReason rs).getD "Jito bundle failed on all endpoints")
    | none => .jsonError 503 ((firstRejectedReason rs).getD "Jito bundle failed on all endpoints")

/-- The time at which the handler can respond: `Promise.allSettled`
  resolves only when every raced attempt has settled, so it is the maximum
  settle time over all attempts. -/
def fanoutTime (rs : List Settled) : Nat :=
  (rs.map Settled.time).foldl max 0

/-! ## Connection managers (C5, C6)

  `JitoGrpcManager` (part_001 lines 1036-1163) and
  `YellowstoneGrpcManager` (lines 1170-1344).  For C5 we embed the
  event-loop interleaving of `getClient`: a call's code up to its first
  `await` runs atomically (JavaScript is single-threaded), so a batch of N
  concurrent `getClient()` calls runs N atomic synchronous prefixes in
  order, against shared manager state.

  The one behavioural difference between the two managers that matters
  here: `JitoGrpcManager._connect` assigns `this.client =
  searcherClient(endpoint, authKeypair)` synchronously, before its first
  internal `await` (`this.client.getTipAccounts()`), while
  `YellowstoneGrpcManager._connect` first `await`s a dynamic `import` and
  only then assigns `this.client`.  So within one synchronous batch, the
  Jito manager's client field is already set when the second caller's
  prefix runs, and the Yellowstone manager's is still null. -/

inductive MgrKind where
  | jito
  | yellowstone
  deriving Repr, DecidableEq

/-- Shared manager state touched by `getClient`'s synchronous prefix.
  Attempts (calls of `_connect`) are numbered; a client handle is the
  number of the attempt that installed it. -/
structure MgrSt where
  client : Option Nat
  isConnecting : Bool
  connectionPromise : Option Nat
  nextAttempt : Nat
  started : List Nat
  deriving Repr, DecidableEq

/-- The disconnected state: no client, no attempt in flight. -/
def MgrSt.init : MgrSt :=
  { client := none, isConnecting := false, connectionPromise := none
  , nextAttempt := 0, started := [] }

/-- What a `getClient()` call is suspended on (or returns immediately)
  after its synchronous prefix. -/
inductive CallOutcome where
  | immediateClient (c : Nat)
  | awaitAttempt (p : Nat)
  deriving Repr, DecidableEq

/-- The synchronous prefix of `getClient()` (lines 1063-1071 resp.
  1188-1196), including — when a new attempt is started — the synchronous
  prefix of `_connect` (lines 1084-1092 resp. 1209-1218). -/
def getClientSync (k : MgrKind) (st : MgrSt) : CallOutcome × MgrSt :=
  match st.client with
  | some c => (.immediateClient c, st)
  | none =>
    if st.isConnecting ∧ st.connectionPromise.isSome then
      (.awaitAttempt (st.connectionPromise.getD 0), st)
    else
      let a := st.nextAttempt
      ( .awaitAttempt a
      , { client := match k with
            | .jito => some a
            | .yellowstone => none
        , isConnecting := true
        , connectionPromise := some a
        , nextAttempt := a + 1
        , started := st.started ++ [a] } )

/-- Run the synchronous prefixes of `n` concurrent `getClient()` calls, in
  order, against shared state. -/
def runCallers (k : MgrKind) : Nat → MgrSt → List CallOutcome × MgrSt
  | 0, st => ([], st)
  | n + 1, st =>
    let (o, st') := getClientSync k st
    let (os, st'') := runCallers k n st'
    (o :: os, st'')

/-- What the single shared connection attempt resolves to: on success the
  client handle, on failure the connection error (`_connect` resets
  `this.client` to null and rethrows). -/
def attemptResult (success : Bool) (a : Nat) : Except String Nat :=
  if success then .ok a else .error "connect failed"

/-- The value a caller ends up with once the in-flight attempt settles: a
  caller suspended on the attempt receives the attempt's result; a caller
  that returned `this.client` directly already has that handle, whatever
  the attempt later does. -/
def callerResult (success : Bool) : CallOutcome → Except String Nat
  | .awaitAttempt p => attemptResult success p
  | .immediateClient c => .ok c

/-! ### Bounded reconnection (C6)

  `reconnect()` (part_001 lines 1110-1128 and identically 1275-1293):
  refuses once `reconnectAttempts` reached `maxReconnectAttempts` (5),
  otherwise nulls the client, bumps the counter, sleeps
  `reconnectDelay * 2^(attempts-1)` ms (base 1000), retries `getClient()`
  and recurses on failure.  The environment `outcomes k` tells whether the
  `getClient()` call of attempt number `k` succeeds; on success
  `getClient` installs a client and resets the attempt counter to 0. -/

def maxReconnectAttempts : Nat := 5

def reconnectDelay : Nat := 1000

/-- State of one manager as far as `reconnect` touches it. -/
structure ReconnSt where
  client : Option Nat
  reconnectAttempts : Nat
  deriving Repr, DecidableEq

/-- The recursion of `reconnect()`, made structural on the fuel
  `maxReconnectAttempts - reconnectAttempts`: the JS guard
  `reconnectAttempts >= maxReconnectAttempts` is exactly `fuel = 0`, and
  since each recursive call bumps the counter by one and is handed
  `fuel - 1`, the coupling `fuel = maxReconnectAttempts -
  reconnectAttempts` is maintained exactly.  On a zero-fuel call the
  state is returned untouched with the JS `return null`.  On success the
  inner `getClient()` installs the client and resets the counter to 0. -/
def reconnectAux (outcomes : Nat → Bool) :
    Nat → ReconnSt → Option Nat × ReconnSt × List Nat
  | 0, st => (none, st, [])
  | fuel + 1, st =>
    let a := st.reconnectAttempts + 1
    let delay := reconnectDelay * 2 ^ (a - 1)
    if outcomes a then
      (some a, { client := some a, reconnectAttempts := 0 }, [delay])
    else
      let r := reconnectAux outcomes fuel { client := none, reconnectAttempts := a }
      (r.1, r.2.1, delay :: r.2.2)

/-- Embeds `reconnect()` (part_001 lines 1110-1128, identically 1275-1293):
  returns the result (`none` = permanent failure, the JS `return null`),
  the final state, and the list of back-off delays slept, in order — one
  delay per connection attempt performed. -/
def reconnect (outcomes : Nat → Bool) (st : ReconnSt) :
    Option Nat × ReconnSt × List Nat :=
  reconnectAux outcomes (maxReconnectAttempts - st.reconnectAttempts) st

/-! ## Account cache (C7, C10)

  `AccountCacheManager` (part_001 lines 1351-1553).  The JS `Map` is
  embedded as an insertion-ordered association list; `Map.set` replaces in
  place when the key is present and appends otherwise, `Map.delete`
  removes the key, and iteration order is insertion order. -/

def cacheTTL : Nat := 5000

def maxCacheSize : Nat := 1000

/-- One cached account snapshot (`pubkey -> { ...accountData }`). -/
structure CacheEntry where
  data : Option String
  owner : String
  lamports : String
  executable : Bool
  rentEpoch : String
  slot : Option String
  updatedAt : Nat
  deriving Repr, DecidableEq

/-- Embeds `Map.get`. -/
def mapGet (l : List (String × CacheEntry)) (k : String) : Option CacheEntry :=
  (l.find? fun p => p.1 = k).map Prod.snd

/-- Embeds `Map.set`: replace in place if the key is present, append
  otherwise. -/
def mapSet (l : List (String × CacheEntry)) (k : String) (v : CacheEntry) :
    List (String × CacheEntry) :=
  if (l.find? fun p => p.1 = k).isSome then
    l.map fun p => if p.1 = k then (k, v) else p
  else
    l ++ [(k, v)]

/-- Embeds `Map.delete`. -/
def mapDelete (l : List (String × CacheEntry)) (k : String) :
    List (String × CacheEntry) :=
  l.filter fun p => ¬ p.1 = k

/-- One comparison step of the oldest-entry scan. -/
def oldestStep (acc : Option (String × CacheEntry)) (e : String × CacheEntry) :
    Option (String × CacheEntry) :=
  match acc with
  | none => some e
  | some a => if e.2.updatedAt < a.2.updatedAt then some e else some a

/-- Embeds `[...entries].sort((a, b) => a[1].updatedAt - b[1].updatedAt)[0]`
  (lines 1521-1522): the sort is stable, so this is the first entry in
  insertion order among those with the smallest `updatedAt`. -/
def oldestEntry (l : List (String × CacheEntry)) : Option (String × CacheEntry) :=
  l.foldl oldestStep none

/-- Embeds `_cacheAccount` (lines 1518-1529): evict the oldest entry when
  the
  cache is full, then insert. -/
def cacheAccount (cache : List (String × CacheEntry)) (pubkey : String)
    (d : CacheEntry) : List (String × CacheEntry) :=
  let cache1 :=
    if cache.length ≥ maxCacheSize then
      match oldestEntry cache with
      | some o => mapDelete cache o.1
      | none => cache
    else cache
  mapSet cache1 pubkey d

/-- The mutating cache operations: every insertion path of the manager
  (`_fetchAccountViaSubscription` line 1445 and `_fetchAccountViaRpc` line
  1513) goes through `_cacheAccount`; `clearCache` (line 1542) empties the
  map. -/
inductive CacheOp where
  | cacheAcc (pubkey : String) (d : CacheEntry)
  | clearCache

def applyCacheOp (cache : List (String × CacheEntry)) : CacheOp →
    List (String × CacheEntry)
  | .cacheAcc k d => cacheAccount cache k d
  | .clearCache => []

def applyCacheOps (ops : List CacheOp) : List (String × CacheEntry) :=
  ops.foldl applyCacheOp []

/-- What `getAccount` (lines 1363-1384) decides to do, as a function of
  the cache, the pending-request set and the current time.  `cacheHit e`
  is the return of `{ ...cached, source: 'cache' }` with no upstream
  fetch; `joinPending` returns the in-flight request's promise;
  `startFetch` performs a live fetch via `_fetchAccountViaSubscription`. -/
inductive GetAccountAction where
  | cacheHit (e : CacheEntry)
  | joinPending
  | startFetch
  deriving Repr, DecidableEq

def getAccountDecision (cache : List (String × CacheEntry))
    (pending : List String) (pubkey : String) (now : Nat) : GetAccountAction :=
  match mapGet cache pubkey with
  | some cached =>
    if now - cached.updatedAt < cacheTTL then .cacheHit cached
    else if pubkey ∈ pending then .joinPending
    else .startFetch
  | none =>
    if pubkey ∈ pending then .joinPending
    else .startFetch

/-- The immediate response of `getAccount` on a cache hit:
  `return { ...cached, source: 'cache' }` (line 1366); on the other two
  actions the response comes from the joined or newly started fetch. -/
def getAccountResponse : GetAccountAction → Option (CacheEntry × String)
  | .cacheHit e => some (e, "cache")
  | .joinPending => none
  | .startFetch => none

/-- Provenance tag of a live fetch: `_fetchAccountViaSubscription` tags a
  streaming-provider snapshot `grpc` (line 1448); on streaming failure it
  falls back to `_fetchAccountViaRpc`, which tags `rpc_fallback` (line
  1514) — or `rpc` when the account does not exist (line 1501). -/
def fetchSource (grpcOk : Bool) (rpcHasValue : Bool) : String :=
  if grpcOk then "grpc"
  else if rpcHasValue then "rpc_fallback"
  else "rpc"

/-! ## Trade service (C3, C4, C8)

  `TradeService` (part_001 lines 1560-2018).  Upstream calls are modelled
  by a `TradeEnv` oracle giving each network operation's outcome;
  `Math.random()` in the tip-account choice is modelled by a `Nat` seed.
  Trade timestamps (`createdAt`/`updatedAt`, step `timestamp`) are
  outside the model. -/

def SOL_MINT : String := "So11111111111111111111111111111111111111112"

/-- One audit-trail entry appended by `_addStep` (lines 1951-1961);
  `data` models the structured payload's fields. -/
structure Step where
  name : String
  status : String
  data : List (String × String)
  deriving Repr, DecidableEq

/-- A trade record as stored in `activeTrades`. -/
structure Trade where
  id : String
  type : String
  status : String
  inputMint : String
  outputMint : String
  amount : Nat
  walletPubkey : String
  bundleId : Option String := none
  error : Option String := none
  step : Option String := none
  steps : List Step
  deriving Repr, DecidableEq

/-- Embeds `_addStep`: append to the step log of the trade. -/
def addStep (t : Trade) (name status : String) (data : List (String × String)) :
    Trade :=
  { t with steps := t.steps ++ [{ name := name, status := status, data := data }] }

/-- The quote fields the service reads off the Jupiter quote response. -/
structure Quote where
  inAmount : String
  outAmount : String
  priceImpactPct : String
  deriving Repr, DecidableEq

/-- The swap-construction response (`swapResult.swapTransaction`). -/
structure SwapResult where
  swapTransaction : Option String
  deriving Repr, DecidableEq

/-- Oracle for the upstream calls one `executeBuy`/`executeSell` run
  makes: the streaming blockhash call, the RPC fallback, the Jupiter
  quote, the Jupiter swap build, the `_sendViaJitoGrpc` outcome (which
  never throws: it returns `{ok: true, uuid}` or `{ok: false, error}`),
  and the `Math.random()` seed for the tip account. -/
structure TradeEnv where
  grpcBlockhash : Except String (String × Nat)
  rpcBlockhash : Except String (String × Nat)
  quote : Except String Quote
  swapTx : Except String SwapResult
  bundle : Except String String
  tipRand : Nat

/-- Embeds `getRandomTipAccount` (lines 1572-1574):
  `JITO_TIP_ACCOUNTS[Math.floor(Math.random() * JITO_TIP_ACCOUNTS.length)]`,
  with the random draw modelled as an arbitrary seed reduced mod the pool
  size. -/
def getRandomTipAccount (r : Nat) : String :=
  JITO_TIP_ACCOUNTS.getD (r % JITO_TIP_ACCOUNTS.length) ""

/-- The JSON object `executeBuy`/`executeSell` resolve with; fields absent
  from a branch's object literal are `none`. -/
structure TradeResponse where
  success : Bool
  tradeId : String
  status : Option String := none
  bundleId : Option String := none
  swapTransaction : Option String := none
  blockhash : Option String := none
  lastValidBlockHeight : Option String := none
  quote : Option Quote := none
  tipAccount : Option String := none
  tipLamports : Option Nat := none
  deriving Repr, DecidableEq

structure BuyParams where
  outputMint : String
  amountLamports : Nat
  slippageBps : Nat := 100
  walletPubkey : String
  signedTransaction : Option String := none
  tipLamports : Nat := 10000

structure SellParams where
  inputMint : String
  amountTokens : Nat
  slippageBps : Nat := 100
  walletPubkey : String
  signedTransaction : Option String := none
  tipLamports : Nat := 10000

/-- The catch block shared by `executeBuy` (lines 1731-1735),
  `executeSell` (lines 1843-1847) and `submitSignedTransaction` (lines
  1881-1885): record the failure on the trade, append a final `error`
  step, re-raise. -/
def applyCatch (msg : String) (t : Trade) : Trade :=
  addStep { t with status := "failed", error := some msg }
    "error" "failed" [("message", msg)]

/-- Embeds `bundleResult.error || "Bundle submission failed"` (lines 1709, 1822,
  1879): JS `||` falls through on the empty string. -/
def bundleThrowMsg (m : String) : String :=
  if m = "" then "Bundle submission failed" else m

/-- Step 1 of both orchestrators (lines 1656-1668): try the streaming
  provider's blockhash, fall back to `_getRpcBlockhash` on failure; the
  second component is the provenance recorded on the `blockhash` step. -/
def fetchBlockhash (env : TradeEnv) : Except String ((String × Nat) × String) :=
  match env.grpcBlockhash with
  | .ok r => .ok (r, "grpc")
  | .error _ =>
    match env.rpcBlockhash with
    | .ok r => .ok (r, "rpc_fallback")
    | .error e => .error e

/-- Embeds `executeBuy` (lines 1623-1736): returns the resolved response or
  the
  re-raised error message, together with the final stored trade record. -/
def executeBuy (p : BuyParams) (tradeId : String) (env : TradeEnv) :
    Except String TradeResponse × Trade :=
  let trade : Trade :=
    { id := tradeId, type := "buy", status := "pending", inputMint := SOL_MINT
    , outputMint := p.outputMint, amount := p.amountLamports
    , walletPubkey := p.walletPubkey, steps := [] }
  let trade := { trade with status := "started" }
  let trade := { trade with step := some "getting_blockhash" }
  match fetchBlockhash env with
  | .error e => (.error e, applyCatch e trade)
  | .ok ((bh, h), src) =>
    let trade := addStep trade "blockhash" "success"
      [("blockhash", bh), ("source", src)]
    let trade := { trade with step := some "getting_quote" }
    match env.quote with
    | .error e => (.error e, applyCatch e trade)
    | .ok q =>
      let trade := addStep trade "quote" "success"
        [ ("inAmount", q.inAmount), ("outAmount", q.outAmount)
        , ("priceImpactPct", q.priceImpactPct) ]
      let trade := { trade with step := some "building_transaction" }
      match env.swapTx with
      | .error e => (.error e, applyCatch e trade)
      | .ok s =>
        let trade := addStep trade "swap_tx" "success"
          [("hasTransaction", toString s.swapTransaction.isSome)]
        match p.signedTransaction with
        | some _ =>
          let trade := { trade with step := some "sending_bundle" }
          match env.bundle with
          | .ok uuid =>
            let trade := addStep trade "bundle_sent" "success" [("uuid", uuid)]
            let trade := { trade with status := "submitted", bundleId := some uuid }
            ( .ok { success := true, tradeId := tradeId, bundleId := some uuid
                  , quote := some q }
            , trade )
          | .error m =>
            let e := bundleThrowMsg m
            (.error e, applyCatch e trade)
        | none =>
          let trade := { trade with status := "awaiting_signature" }
          ( .ok { success := true, tradeId := tradeId
                , status := some "awaiting_signature"
                , swapTransaction := s.swapTransaction
                , blockhash := some bh
                , lastValidBlockHeight := some (toString h)
                , quote := some q
                , tipAccount := some (getRandomTipAccount env.tipRand)
                , tipLamports := some p.tipLamports }
          , trade )

/-- Embeds `executeSell` (lines 1739-1848): identical shape with the asset
  roles
  reversed (token → SOL) and the amount in token base units. -/
def executeSell (p : SellParams) (tradeId : String) (env : TradeEnv) :
    Except String TradeResponse × Trade :=
  let trade : Trade :=
    { id := tradeId, type := "sell", status := "pending"
    , inputMint := p.inputMint, outputMint := SOL_MINT
    , amount := p.amountTokens
    , walletPubkey := p.walletPubkey, steps := [] }
  let trade := { trade with status := "started" }
  let trade := { trade with step := some "getting_blockhash" }
  match fetchBlockhash env with
  | .error e => (.error e, applyCatch e trade)
  | .ok ((bh, h), src) =>
    let trade := addStep trade "blockhash" "success"
      [("blockhash", bh), ("source", src)]
    let trade := { trade with step := some "getting_quote" }
    match env.quote with
    | .error e => (.error e, applyCatch e trade)
    | .ok q =>
      let trade := addStep trade "quote" "success"
        [ ("inAmount", q.inAmount), ("outAmount", q.outAmount)
        , ("priceImpactPct", q.priceImpactPct) ]
      let trade := { trade with step := some "building_transaction" }
      match env.swapTx with
      | .error e => (.error e, applyCatch e trade)
      | .ok s =>
        let trade := addStep trade "swap_tx" "success"
          [("hasTransaction", toString s.swapTransaction.isSome)]
        match p.signedTransaction with
        | some _ =>
          let trade := { trade with step := some "sending_bundle" }
          match env.bundle with
          | .ok uuid =>
            let trade := addStep trade "bundle_sent" "success" [("uuid", uuid)]
            let trade := { trade with status := "submitted", bundleId := some uuid }
            ( .ok { success := true, tradeId := tradeId, bundleId := some uuid
                  , quote := some q }
            , trade )
          | .error m =>
            let e := bundleThrowMsg m
            (.error e, applyCatch e trade)
        | none =>
          let trade := { trade with status := "awaiting_signature" }
          ( .ok { success := true, tradeId := tradeId
                , status := some "awaiting_signature"
                , swapTransaction := s.swapTransaction
                , blockhash := some bh
                , lastValidBlockHeight := some (toString h)
                , quote := some q
                , tipAccount := some (getRandomTipAccount env.tipRand)
                , tipLamports := some p.tipLamports }
          , trade )

/-- The message an `executeBuy`/`executeSell` run throws, if it throws:
  a direct reading of the failure paths of the orchestrator body. -/
def tradeThrow (signed : Option String) (env : TradeEnv) : Option String :=
  match fetchBlockhash env with
  | .error e => some e
  | .ok _ =>
    match env.quote with
    | .error e => some e
    | .ok _ =>
      match env.swapTx with
      | .error e => some e
      | .ok _ =>
        match signed with
        | none => none
        | some _ =>
          match env.bundle with
          | .ok _ => none
          | .error m => some (bundleThrowMsg m)

/-! ### Trade table (`activeTrades`) -/

def tableGet (trades : List (String × Trade)) (k : String) : Option Trade :=
  (trades.find? fun p => p.1 = k).map Prod.snd

def tableSet (trades : List (String × Trade)) (k : String) (t : Trade) :
    List (String × Trade) :=
  if (trades.find? fun p => p.1 = k).isSome then
    trades.map fun p => if p.1 = k then (k, t) else p
  else
    trades ++ [(k, t)]

/-- The object `submitSignedTransaction` resolves with (lines 1873-1877). -/
structure SubmitResponse where
  success : Bool
  tradeId : String
  bundleId : String
  deriving Repr, DecidableEq

/-- Embeds `submitSignedTransaction(tradeId, signedTransaction)` (lines
  1851-1886); `bundleOutcome` is the `_sendViaJitoGrpc` result for the
  submitted transaction. -/
def submitSignedTransaction (trades : List (String × Trade)) (tradeId : String)
    (bundleOutcome : Except String String) :
    Except String SubmitResponse × List (String × Trade) :=
  match tableGet trades tradeId with
  | none => (.error "Trade not found", trades)
  | some trade =>
    if trade.status = "awaiting_signature" then
      let t1 := { trade with step := some "sending_bundle" }
      match bundleOutcome with
      | .ok uuid =>
        let t2 := addStep t1 "bundle_sent" "success" [("uuid", uuid)]
        let t3 := { t2 with status := "submitted", bundleId := some uuid }
        ( .ok { success := true, tradeId := tradeId, bundleId := uuid }
        , tableSet trades tradeId t3 )
      | .error m =>
        let e := bundleThrowMsg m
        (.error e, tableSet trades tradeId (applyCatch e t1))
    else
      ( .error ("Trade is not awaiting signature (status: " ++ trade.status ++ ")")
      , trades )

/-! ## POST /send-txs (C9)

  Two handlers share the response shape: `src/index.js` lines 740-894
  (dual-send to RPC and the Helius sender) and `part_000` lines 155-217
  (RPC only, batched).  Each transaction's slot in `allResults` is filled
  positionally; the top-level `success` is `results.some(r => r.success)`. -/

/-- Per-transaction result object. -/
structure TxResult where
  success : Bool
  sig : Option String := none
  error : Option String := none
  deriving Repr, DecidableEq

/-- Embeds `sendOne` (part_000 lines 172-195): one sendTransaction attempt,
  errors (upstream `data.error` or thrown fetch) caught into a failure
  result. -/
def sendOne (outcome : Except String String) : TxResult :=
  match outcome with
  | .ok s => { success := true, sig := some s }
  | .error e => { success := false, error := some e }

/-- Embeds `sendOneDual` (index.js lines 843-869): race RPC and (when
  enabled)
  the Helius sender, take the first success in [rpc, helius] order, else
  report the RPC error. -/
def sendOneDual (rpc : Except String String)
    (helius : Option (Except String String)) : TxResult :=
  match rpc with
  | .ok s => { success := true, sig := some s }
  | .error e =>
    match helius with
    | some (.ok s) => { success := true, sig := some s }
    | _ => { success := false, error := some e }

structure SendTxsResponse where
  success : Bool
  results : List TxResult
  deriving Repr, DecidableEq

/-- The `/send-txs` response of part_000 (lines 208-212). -/
def sendTxsResponse (outcomes : List (Except String String)) : SendTxsResponse :=
  let results := outcomes.map sendOne
  { success := results.any (·.success), results := results }

/-- The `/send-txs` response of index.js (lines 885-889), dual-send. -/
def sendTxsDualResponse
    (outcomes : List ((Except String String) × Option (Except String String))) :
    SendTxsResponse :=
  let results := outcomes.map fun o => sendOneDual o.1 o.2
  { success := results.any (·.success), results := results }

/-! ## Helper lemmas -/

theorem le_foldl_max_init (l : List Nat) (b : Nat) : b ≤ l.foldl max b := by
  induction l generalizing b with
  | nil => simp
  | cons x xs ih => exact le_trans (le_max_left b x) (ih (max b x))

theorem foldl_max_le_of_mem {l : List Nat} {a : Nat} (h : a ∈ l) (b : Nat) :
    a ≤ l.foldl max b := by
  induction l generalizing b with
  | nil => cases h
  | cons x xs ih =>
    rcases List.mem_cons.mp h with rfl | hx
    · exact le_trans (le_max_right b a) (le_foldl_max_init xs (max b a))
    · exact ih hx (max b x)

theorem findSome?_isSome_of_mem {α β : Type} {f : α → Option β} {l : List α}
    {x : α} (hx : x ∈ l) (hfx : (f x).isSome) : (l.findSome? f).isSome := by
  induction l with
  | nil => cases hx
  | cons y ys ih =>
    rcases List.mem_cons.mp hx with rfl | h
    · rw [List.findSome?_cons]
      cases hfy : f x with
      | none => rw [hfy] at hfx; cases hfx
      | some b => simp
    · rw [List.findSome?_cons]
      cases hfy : f y with
      | none => simpa using ih h
      | some b => simp

/-! ## Claim C1 — fan-out race -/

/-- C1 (amended): when at least one raced endpoint attempt fulfills with a
  body carrying no upstream error, POST /jito/bundle responds 200 with the
  body of the first such endpoint in endpoint order — but only after every
  raced attempt has settled (`Promise.allSettled`): the handler's response
  time bounds every attempt's settle time from above, so it does wait for
  the remaining concurrent attempts. -/
theorem fanout_returns_first_success (rs : List Settled) :
    (∀ d : JitoResp, firstFulfilledNoError rs = some d →
        fanoutResponse rs = .jsonBody 200 d)
    ∧ ((∃ r ∈ rs, ∃ dd, r.outcome = .ok dd ∧ dd.error = none) →
        ∃ d, firstFulfilledNoError rs = some d ∧ fanoutResponse rs = .jsonBody 200 d)
    ∧ (∀ r ∈ rs, r.time ≤ fanoutTime rs) := by
  refine ⟨fun d h => ?_, fun ⟨r, hr, dd, hok, herr⟩ => ?_, fun r hr => ?_⟩
  · unfold fanoutResponse
    rw [h]
  · have hsome : (firstFulfilledNoError rs).isSome := by
      apply findSome?_isSome_of_mem hr
      rw [hok]
      simp [herr]
    obtain ⟨d, hd⟩ := Option.isSome_iff_exists.mp hsome
    exact ⟨d, hd, by unfold fanoutResponse; rw [hd]⟩
  · exact foldl_max_le_of_mem (List.mem_map_of_mem _ hr) 0

/-- C1 witness: the theorem applied to a concrete settled race where the
  first endpoint rejected and the second fulfilled cleanly. -/
theorem fanout_returns_first_success_witness :
    fanoutResponse [⟨.error "timeout", 5⟩, ⟨.ok ⟨some "b1", none⟩, 3⟩] =
      .jsonBody 200 ⟨some "b1", none⟩
    ∧ (5 : Nat) ≤ fanoutTime [⟨.error "timeout", 5⟩, ⟨.ok ⟨some "b1", none⟩, 3⟩] :=
  ⟨(fanout_returns_first_success _).1 _ rfl,
   (fanout_returns_first_success
      [⟨.error "timeout", 5⟩, ⟨.ok ⟨some "b1", none⟩, 3⟩]).2.2
      ⟨.error "timeout", 5⟩ (List.mem_cons_self _ _)⟩

/-- C1 counterexample: endpoint #1 fails and endpoint #2 succeeds, both
  settling at time 1, while endpoints #3/#4 settle only at time 100.  The
  handler returns endpoint #2's body, but `Promise.allSettled` holds the
  response until time 100: the call does wait for the remaining concurrent
  endpoint attempts, contradicting the claim's "returns that first success
  as soon as it is observed, without waiting". -/
theorem fanout_waits_for_all_attempts :
    fanoutResponse
        [ ⟨.ok ⟨none, some "rate limited"⟩, 1⟩
        , ⟨.ok ⟨some "bundle-xyz", none⟩, 1⟩
        , ⟨.ok ⟨some "b3", none⟩, 100⟩
        , ⟨.error "timeout", 100⟩ ] = .jsonBody 200 ⟨some "bundle-xyz", none⟩
    ∧ fanoutTime
        [ ⟨.ok ⟨none, some "rate limited"⟩, 1⟩
        , ⟨.ok ⟨some "bundle-xyz", none⟩, 1⟩
        , ⟨.ok ⟨some "b3", none⟩, 100⟩
        , ⟨.error "timeout", 100⟩ ] = 100
    ∧ ¬ (100 : Nat) ≤ 1 :=
  ⟨rfl, rfl, by decide⟩

/-! ## Claim C2 — bundle-size validation -/

/-- C2 (amended): on POST /grpc/jito/bundle a transactions array of length
  0 or 6 is rejected with a validation error before any send and lengths
  1–5 pass; on POST /jito/bundle only the over-limit length 6 is rejected
  — a length-0 array passes validation and proceeds to the fan-out send —
  and lengths 1–5 pass. -/
theorem bundle_size_validation (txs : List String) :
    (txs.length = 0 →
        grpcJitoBundleValidation (some txs) = some "At least one transaction required"
        ∧ jitoBundleValidation (some txs) = none)
    ∧ (txs.length = 6 →
        grpcJitoBundleValidation (some txs) = some "Max 5 transactions per bundle"
        ∧ jitoBundleValidation (some txs) = some "Max 5 transactions per bundle")
    ∧ (1 ≤ txs.length → txs.length ≤ 5 →
        grpcJitoBundleValidation (some txs) = none
        ∧ jitoBundleValidation (some txs) = none) := by
  refine ⟨fun h => ?_, fun h => ?_, fun h1 h5 => ?_⟩
  · simp [grpcJitoBundleValidation, jitoBundleValidation, h]
  · simp [grpcJitoBundleValidation, jitoBundleValidation, h]
  · have h0 : ¬ txs.length = 0 := by omega
    have hgt : ¬ txs.length > 5 := by omega
    simp [grpcJitoBundleValidation, jitoBundleValidation, h0, hgt]

/-- C2 witness: the theorem applied at the concrete sizes 0, 6 and 1. -/
theorem bundle_size_validation_witness :
    (grpcJitoBundleValidation (some ([] : List String)) =
        some "At least one transaction required"
      ∧ jitoBundleValidation (some ([] : List String)) = none)
    ∧ (grpcJitoBundleValidation (some ["a", "b", "c", "d", "e", "f"]) =
        some "Max 5 transactions per bundle"
      ∧ jitoBundleValidation (some ["a", "b", "c", "d", "e", "f"]) =
        some "Max 5 transactions per bundle")
    ∧ (grpcJitoBundleValidation (some ["a"]) = none
      ∧ jitoBundleValidation (some ["a"]) = none) :=
  ⟨(bundle_size_validation []).1 rfl,
   (bundle_size_validation ["a", "b", "c", "d", "e", "f"]).2.1 rfl,
   (bundle_size_validation ["a"]).2.2 (by decide) (by decide)⟩

/-- C2 counterexample: POST /jito/bundle does not reject a 0-length
  transactions array — the HTTP handler's validation lets the empty array
  through (no 400), contradicting the claim that both bundle-send
  operations reject length 0. -/
theorem empty_bundle_passes_http_validation :
    jitoBundleValidation (some ([] : List String)) = none := rfl

/-! ## Claim C5 — connection singleton -/

theorem getClientSync_stable {k : MgrKind} {st : MgrSt} {o : CallOutcome}
    (h : getClientSync k st = (o, st)) (n : Nat) :
    runCallers k n st = (List.replicate n o, st) := by
  induction n with
  | zero => simp [runCallers]
  | succ m ih => simp [runCallers, h, ih, List.replicate_succ]

theorem runCallers_jito (m : Nat) :
    runCallers .jito (m + 1) MgrSt.init =
      (.awaitAttempt 0 :: List.replicate m (.immediateClient 0),
       ⟨some 0, true, some 0, 1, [0]⟩) := by
  have hpre : getClientSync .jito MgrSt.init =
      (.awaitAttempt 0, ⟨some 0, true, some 0, 1, [0]⟩) := rfl
  have hstable : getClientSync .jito ⟨some 0, true, some 0, 1, [0]⟩ =
      (.immediateClient 0, ⟨some 0, true, some 0, 1, [0]⟩) := rfl
  simp [runCallers, hpre, getClientSync_stable hstable]

theorem runCallers_yellowstone (m : Nat) :
    runCallers .yellowstone (m + 1) MgrSt.init =
      (.awaitAttempt 0 :: List.replicate m (.awaitAttempt 0),
       ⟨none, true, some 0, 1, [0]⟩) := by
  have hpre : getClientSync .yellowstone MgrSt.init =
      (.awaitAttempt 0, ⟨none, true, some 0, 1, [0]⟩) := rfl
  have hstable : getClientSync .yellowstone ⟨none, true, some 0, 1, [0]⟩ =
      (.awaitAttempt 0, ⟨none, true, some 0, 1, [0]⟩) := rfl
  simp [runCallers, hpre, getClientSync_stable hstable]

/-- C5 (amended): for N ≥ 1 concurrent `getClient()` calls starting from
  the disconnected state, exactly one `_connect` attempt is started (the
  first caller's), and no call's synchronous prefix ever starts a new
  attempt while one is in flight.  All callers of the Yellowstone manager
  await that single shared attempt.  On the Jito manager, `_connect`
  installs the client handle synchronously before its connection test, so
  callers after the first return that handle immediately instead of
  awaiting the attempt; when the attempt succeeds, every caller still
  receives the attempt's result (the installed handle). -/
theorem connection_singleton (k : MgrKind) (n : Nat) (hn : 1 ≤ n) :
    (runCallers k n MgrSt.init).2.started = [0]
    ∧ (runCallers k n MgrSt.init).2.nextAttempt = 1
    ∧ (runCallers k n MgrSt.init).1.head? = some (.awaitAttempt 0)
    ∧ (k = .yellowstone →
        ∀ o ∈ (runCallers k n MgrSt.init).1, o = .awaitAttempt 0)
    ∧ (k = .jito →
        (runCallers k n MgrSt.init).1 =
          .awaitAttempt 0 :: List.replicate (n - 1) (.immediateClient 0))
    ∧ (∀ o ∈ (runCallers k n MgrSt.init).1, callerResult true o = .ok 0)
    ∧ (∀ st : MgrSt, st.isConnecting = true → st.connectionPromise.isSome →
        (getClientSync k st).2 = st) := by
  obtain ⟨m, rfl⟩ : ∃ m, n = m + 1 := ⟨n - 1, by omega⟩
  have hstay : ∀ st : MgrSt, st.isConnecting = true → st.connectionPromise.isSome →
      (getClientSync k st).2 = st := by
    intro st hc hp
    unfold getClientSync
    cases hcl : st.client with
    | some c => rfl
    | none =>
      rw [if_pos]
      exact ⟨by simp [hc], hp⟩
  cases k with
  | jito =>
    rw [runCallers_jito]
    refine ⟨rfl, rfl, rfl, ?_, ?_, ?_, hstay⟩
    · intro h
      exact absurd h (by decide)
    · intro _
      simp
    · intro o ho
      rcases List.mem_cons.mp ho with rfl | ho'
      · rfl
      · rw [List.eq_of_mem_replicate ho']
        rfl
  | yellowstone =>
    rw [runCallers_yellowstone]
    refine ⟨rfl, rfl, rfl, ?_, ?_, ?_, hstay⟩
    · intro _ o ho
      rcases List.mem_cons.mp ho with rfl | ho'
      · rfl
      · exact List.eq_of_mem_replicate ho'
    · intro h
      exact absurd h (by decide)
    · intro o ho
      rcases List.mem_cons.mp ho with rfl | ho'
      · rfl
      · rw [List.eq_of_mem_replicate ho']
        rfl

/-- C5 witness: the theorem applied to 3 concurrent callers on each
  manager. -/
theorem connection_singleton_witness :
    (runCallers .jito 3 MgrSt.init).2.started = [0]
    ∧ (runCallers .yellowstone 3 MgrSt.init).2.started = [0] :=
  ⟨(connection_singleton .jito 3 (by decide)).1,
   (connection_singleton .yellowstone 3 (by decide)).1⟩

/-- C5 counterexample: two concurrent `getClient()` calls on the Jito
  manager from the disconnected state.  Exactly one `_connect` is started,
  but the second caller's synchronous prefix sees the client handle that
  `_connect` installed before its connection test and returns it
  immediately rather than awaiting the shared attempt.  When that
  attempt's connection test fails, the attempt's result is an error while
  the second caller already received a client handle — so it is not the
  case that all N callers await and receive the result of the single
  shared attempt. -/
theorem jito_second_caller_skips_attempt :
    (runCallers .jito 2 MgrSt.init).1 = [.awaitAttempt 0, .immediateClient 0]
    ∧ (runCallers .jito 2 MgrSt.init).2.started = [0]
    ∧ callerResult false (.immediateClient 0) = .ok 0
    ∧ attemptResult false 0 = .error "connect failed"
    ∧ (Except.ok 0 : Except String Nat) ≠ .error "connect failed" :=
  ⟨rfl, rfl, rfl, rfl, fun h => Except.noConfusion h⟩

/-! ## Claim C6 — bounded exponential-backoff reconnection -/

theorem reconnectAux_length_le (o : Nat → Bool) (fuel : Nat) (st : ReconnSt) :
    (reconnectAux o fuel st).2.2.length ≤ fuel := by
  induction fuel generalizing st with
  | zero => simp [reconnectAux]
  | succ f ih =>
    unfold reconnectAux
    by_cases h : o (st.reconnectAttempts + 1)
    · simp [h]
    · simpa [h] using ih ⟨none, st.reconnectAttempts + 1⟩

theorem reconnectAux_delay_doubles (o : Nat → Bool) (fuel : Nat) (st : ReconnSt) :
    ∀ i : Nat, i < (reconnectAux o fuel st).2.2.length →
      (reconnectAux o fuel st).2.2[i]? =
        some (reconnectDelay * 2 ^ (st.reconnectAttempts + i)) := by
  induction fuel generalizing st with
  | zero => intro i hi; simp [reconnectAux] at hi
  | succ f ih =>
    intro i hi
    unfold reconnectAux at hi ⊢
    by_cases h : o (st.reconnectAttempts + 1)
    · simp [h] at hi ⊢
      obtain rfl : i = 0 := by omega
      simp
    · simp only [h, Bool.false_eq_true, if_false] at hi ⊢
      match i with
      | 0 => simp
      | j + 1 =>
        have hj : j < (reconnectAux o f ⟨none, st.reconnectAttempts + 1⟩).2.2.length := by
          simpa using hi
        have := ih ⟨none, st.reconnectAttempts + 1⟩ j hj
        simpa [Nat.add_assoc, Nat.add_comm 1 j] using this

/-- C6: `reconnect()` discards the client handle, retries with a delay
  doubling per attempt from base 1000ms, performs at most
  `maxReconnectAttempts - reconnectAttempts` (≤ 5) connection attempts,
  and once the counter has reached 5 returns the permanent-failure result
  `null` without retrying further.  The concrete all-failures run from a
  fresh counter performs exactly 5 attempts with delays
  [1000, 2000, 4000, 8000, 16000], ends with no client handle, and
  returns null. -/
theorem reconnect_bounded_backoff :
    (reconnect (fun _ => false) ⟨some 7, 0⟩ =
        (none, ⟨none, 5⟩, [1000, 2000, 4000, 8000, 16000]))
    ∧ (∀ (o : Nat → Bool) (st : ReconnSt),
        (reconnect o st).2.2.length ≤ maxReconnectAttempts - st.reconnectAttempts)
    ∧ (∀ (o : Nat → Bool) (st : ReconnSt) (i : Nat),
        i < (reconnect o st).2.2.length →
        (reconnect o st).2.2[i]? =
          some (reconnectDelay * 2 ^ (st.reconnectAttempts + i)))
    ∧ (∀ (o : Nat → Bool) (st : ReconnSt),
        maxReconnectAttempts ≤ st.reconnectAttempts →
        reconnect o st = (none, st, [])) := by
  refine ⟨by decide, fun o st => ?_, fun o st => ?_, fun o st h => ?_⟩
  · exact reconnectAux_length_le o _ st
  · exact reconnectAux_delay_doubles o _ st
  · have hz : maxReconnectAttempts - st.reconnectAttempts = 0 := by omega
    rw [reconnect, hz]
    rfl

/-- C6 witness: the theorem's bounds evaluated on the concrete
  all-failures run and on a counter already at the cap. -/
theorem reconnect_bounded_backoff_witness :
    reconnect (fun _ => false) ⟨some 7, 0⟩ =
      (none, ⟨none, 5⟩, [1000, 2000, 4000, 8000, 16000])
    ∧ (reconnect (fun _ => false) ⟨some 7, 0⟩).2.2[2]? =
        some (reconnectDelay * 2 ^ (0 + 2))
    ∧ reconnect (fun _ => false) ⟨none, 6⟩ = (none, ⟨none, 6⟩, []) :=
  ⟨reconnect_bounded_backoff.1,
   reconnect_bounded_backoff.2.2.1 (fun _ => false) ⟨some 7, 0⟩ 2 (by decide),
   reconnect_bounded_backoff.2.2.2 (fun _ => false) ⟨none, 6⟩ (by decide)⟩

/-! ## Claim C7 — account-cache TTL -/

/-- C7: a `getAccount(address)` call whose cache entry is younger than the
  5s TTL returns the cached snapshot with provenance `cache` and performs
  no upstream fetch; a call with no entry, or whose entry's age is at or
  past the TTL, starts a live fetch (absent an in-flight request for the
  same address), and a live fetch's provenance — `grpc` when the streaming
  provider answers, else a RPC tag — is never `cache`. -/
theorem account_cache_ttl (cache : List (String × CacheEntry))
    (pending : List String) (pk : String) (now : Nat) (e : CacheEntry) :
    (mapGet cache pk = some e → now - e.updatedAt < cacheTTL →
        getAccountDecision cache pending pk now = .cacheHit e
        ∧ getAccountResponse (getAccountDecision cache pending pk now) =
            some (e, "cache")
        ∧ getAccountDecision cache pending pk now ≠ .startFetch)
    ∧ (pk ∉ pending → mapGet cache pk = none →
        getAccountDecision cache pending pk now = .startFetch)
    ∧ (pk ∉ pending → mapGet cache pk = some e → cacheTTL ≤ now - e.updatedAt →
        getAccountDecision cache pending pk now = .startFetch)
    ∧ (∀ g r, fetchSource g r ≠ "cache")
    ∧ (∀ r, fetchSource true r = "grpc") := by
  refine ⟨fun hg hf => ?_, fun hp hg => ?_, fun hp hg hf => ?_,
          fun g r => ?_, fun r => ?_⟩
  · have hdec : getAccountDecision cache pending pk now = .cacheHit e := by
      unfold getAccountDecision
      rw [hg]
      exact if_pos hf
    exact ⟨hdec, by rw [hdec]; rfl, by rw [hdec]; exact fun h => by cases h⟩
  · unfold getAccountDecision
    rw [hg]
    exact if_neg hp
  · unfold getAccountDecision
    rw [hg]
    have h1 : ¬ (now - e.updatedAt < cacheTTL) := by omega
    simp [h1, hp]
  · cases g <;> cases r <;> simp [fetchSource]
  · cases r <;> simp [fetchSource]

/-- C7 witness: the theorem applied to a concrete one-entry cache at a
  fresh and at an expired read time. -/
theorem account_cache_ttl_witness :
    getAccountDecision [("a", ⟨none, "o", "1", false, "0", none, 100⟩)] [] "a" 4000 =
      .cacheHit ⟨none, "o", "1", false, "0", none, 100⟩
    ∧ getAccountDecision [("a", ⟨none, "o", "1", false, "0", none, 100⟩)] [] "a" 6000 =
      .startFetch
    ∧ getAccountDecision [] [] "a" 4000 = .startFetch :=
  ⟨((account_cache_ttl [("a", ⟨none, "o", "1", false, "0", none, 100⟩)] [] "a" 4000
      ⟨none, "o", "1", false, "0", none, 100⟩).1 rfl (by decide)).1,
   (account_cache_ttl [("a", ⟨none, "o", "1", false, "0", none, 100⟩)] [] "a" 6000
      ⟨none, "o", "1", false, "0", none, 100⟩).2.2.1 (by simp) rfl (by decide),
   (account_cache_ttl [] [] "a" 4000 ⟨none, "o", "1", false, "0", none, 100⟩).2.1
     (by simp) rfl⟩

/-! ## Claim C10 — cache size bound -/

theorem oldestStep_some (a x : String × CacheEntry) :
    oldestStep (some a) x =
      if x.2.updatedAt < a.2.updatedAt then some x else some a := rfl

theorem oldestStep_isSome (l : List (String × CacheEntry))
    (a : String × CacheEntry) : (l.foldl oldestStep (some a)).isSome := by
  induction l generalizing a with
  | nil => rfl
  | cons x xs ih =>
    rw [List.foldl_cons, oldestStep_some]
    by_cases h : x.2.updatedAt < a.2.updatedAt
    · rw [if_pos h]
      exact ih x
    · rw [if_neg h]
      exact ih a

theorem oldestFold_spec (l : List (String × CacheEntry))
    (a o : String × CacheEntry) (h : l.foldl oldestStep (some a) = some o) :
    (o = a ∨ o ∈ l) ∧ o.2.updatedAt ≤ a.2.updatedAt
      ∧ ∀ e ∈ l, o.2.updatedAt ≤ e.2.updatedAt := by
  induction l generalizing a with
  | nil =>
    simp at h
    subst h
    simp
  | cons x xs ih =>
    rw [List.foldl_cons, oldestStep_some] at h
    by_cases hx : x.2.updatedAt < a.2.updatedAt
    · rw [if_pos hx] at h
      obtain ⟨hmem, hle, hall⟩ := ih x h
      refine ⟨?_, ?_, ?_⟩
      · rcases hmem with rfl | hm
        · exact Or.inr (List.mem_cons_self _ _)
        · exact Or.inr (List.mem_cons_of_mem _ hm)
      · exact le_trans hle (le_of_lt hx)
      · intro e he
        rcases List.mem_cons.mp he with rfl | he'
        · exact hle
        · exact hall e he'
    · rw [if_neg hx] at h
      obtain ⟨hmem, hle, hall⟩ := ih a h
      refine ⟨?_, hle, ?_⟩
      · rcases hmem with rfl | hm
        · exact Or.inl rfl
        · exact Or.inr (List.mem_cons_of_mem _ hm)
      · intro e he
        rcases List.mem_cons.mp he with rfl | he'
        · exact le_trans hle (le_of_not_lt hx)
        · exact hall e he'

theorem oldestEntry_spec (l : List (String × CacheEntry))
    (hne : l ≠ []) :
    ∃ o, oldestEntry l = some o ∧ o ∈ l
      ∧ ∀ e ∈ l, o.2.updatedAt ≤ e.2.updatedAt := by
  match l, hne with
  | x :: xs, _ =>
    have hsome : (oldestEntry (x :: xs)).isSome := by
      unfold oldestEntry
      rw [List.foldl_cons]
      exact oldestStep_isSome xs x
    obtain ⟨o, ho⟩ := Option.isSome_iff_exists.mp hsome
    have h' : xs.foldl oldestStep (some x) = some o := by
      unfold oldestEntry at ho
      rwa [List.foldl_cons] at ho
    obtain ⟨hmem, hle, hall⟩ := oldestFold_spec xs x o h'
    refine ⟨o, ho, ?_, ?_⟩
    · rcases hmem with rfl | hm
      · exact List.mem_cons_self _ _
      · exact List.mem_cons_of_mem _ hm
    · intro e he
      rcases List.mem_cons.mp he with rfl | he'
      · exact hle
      · exact hall e he'

theorem mapSet_length_le (l : List (String × CacheEntry)) (k : String)
    (v : CacheEntry) : (mapSet l k v).length ≤ l.length + 1 := by
  unfold mapSet
  by_cases h : (l.find? fun p => p.1 = k).isSome <;> simp [h]

theorem mapDelete_length_lt {l : List (String × CacheEntry)}
    {o : String × CacheEntry} (ho : o ∈ l) :
    (mapDelete l o.1).length < l.length := by
  unfold mapDelete
  induction l with
  | nil => cases ho
  | cons x xs ih =>
    rcases List.mem_cons.mp ho with rfl | hm
    · simp only [List.filter_cons]
      rw [if_neg (by simp)]
      have := List.length_filter_le (fun p => ¬ p.1 = o.1 : _ → Bool) xs
      simpa using Nat.lt_succ_of_le this
    · simp only [List.filter_cons]
      by_cases hx : (¬ x.1 = o.1 : Prop)
      · rw [if_pos (by simpa using hx)]
        simpa using Nat.succ_lt_succ (ih hm)
      · rw [if_neg (by simpa using hx)]
        exact Nat.lt_succ_of_lt (ih hm)

theorem cacheAccount_preserves (cache : List (String × CacheEntry))
    (pk : String) (d : CacheEntry) (h : cache.length ≤ maxCacheSize) :
    (cacheAccount cache pk d).length ≤ maxCacheSize := by
  unfold cacheAccount
  by_cases hfull : cache.length ≥ maxCacheSize
  · have hne : cache ≠ [] := by
      intro hnil
      rw [hnil] at hfull
      simp [maxCacheSize] at hfull
    obtain ⟨o, ho, homem, -⟩ := oldestEntry_spec cache hne
    rw [if_pos hfull, ho]
    show (mapSet (mapDelete cache o.1) pk d).length ≤ maxCacheSize
    have hdel : (mapDelete cache o.1).length < cache.length :=
      mapDelete_length_lt homem
    have := mapSet_length_le (mapDelete cache o.1) pk d
    omega
  · rw [if_neg hfull]
    show (mapSet cache pk d).length ≤ maxCacheSize
    have := mapSet_length_le cache pk d
    omega

theorem applyCacheOps_le (ops : List CacheOp) :
    (applyCacheOps ops).length ≤ maxCacheSize := by
  have aux : ∀ (l : List CacheOp) (cache : List (String × CacheEntry)),
      cache.length ≤ maxCacheSize →
      (l.foldl applyCacheOp cache).length ≤ maxCacheSize := by
    intro l
    induction l with
    | nil => intro cache h; simpa using h
    | cons op rest ih =>
      intro cache h
      rw [List.foldl_cons]
      apply ih
      cases op with
      | cacheAcc k d => exact cacheAccount_preserves cache k d h
      | clearCache => simp [applyCacheOp, maxCacheSize]
  exact aux ops [] (by simp)

/-- C10: the account cache never exceeds 1000 entries — `_cacheAccount`
  preserves the bound (it evicts the entry with the smallest `updatedAt`
  whenever the cache already holds at least `maxCacheSize` entries, before
  inserting), the evicted entry is minimal, and every sequence of cache
  operations starting from the empty cache stays within the bound. -/
theorem cache_size_invariant :
    (∀ (cache : List (String × CacheEntry)) (pk : String) (d : CacheEntry),
        cache.length ≤ maxCacheSize →
        (cacheAccount cache pk d).length ≤ maxCacheSize)
    ∧ (∀ cache : List (String × CacheEntry),
        maxCacheSize ≤ cache.length →
        ∃ o, oldestEntry cache = some o ∧ o ∈ cache
          ∧ ∀ e ∈ cache, o.2.updatedAt ≤ e.2.updatedAt)
    ∧ (∀ ops : List CacheOp, (applyCacheOps ops).length ≤ maxCacheSize) := by
  refine ⟨cacheAccount_preserves, fun cache h => ?_, applyCacheOps_le⟩
  apply oldestEntry_spec
  intro hnil
  rw [hnil] at h
  simp [maxCacheSize] at h

/-- C10 witness: the theorem applied to the empty cache, to a full cache
  of `maxCacheSize` identical entries, and to a two-operation run. -/
theorem cache_size_invariant_witness :
    (cacheAccount [] "a" ⟨none, "o", "1", false, "0", none, 7⟩).length ≤ maxCacheSize
    ∧ (∃ o, oldestEntry (List.replicate maxCacheSize
          ("a", (⟨none, "o", "1", false, "0", none, 7⟩ : CacheEntry))) = some o
        ∧ o ∈ List.replicate maxCacheSize
            ("a", (⟨none, "o", "1", false, "0", none, 7⟩ : CacheEntry))
        ∧ ∀ e ∈ List.replicate maxCacheSize
            ("a", (⟨none, "o", "1", false, "0", none, 7⟩ : CacheEntry)),
            o.2.updatedAt ≤ e.2.updatedAt)
    ∧ (applyCacheOps [.cacheAcc "a" ⟨none, "o", "1", false, "0", none, 7⟩,
        .cacheAcc "b" ⟨none, "o", "2", false, "0", none, 9⟩]).length ≤ maxCacheSize :=
  ⟨cache_size_invariant.1 [] "a" _ (by simp),
   cache_size_invariant.2.1 _ (by simp),
   cache_size_invariant.2.2 _⟩

/-! ## Claim C3 — submitSignedTransaction contract -/

theorem tableGet_isSome_find {trades : List (String × Trade)} {k : String}
    {t : Trade} (h : tableGet trades k = some t) :
    (trades.find? fun p => p.1 = k).isSome := by
  unfold tableGet at h
  cases hf : trades.find? fun p => p.1 = k with
  | none => rw [hf] at h; cases h
  | some p => rfl

theorem tableGet_tableSet_present {trades : List (String × Trade)} {k : String}
    (h : (trades.find? fun p => p.1 = k).isSome) (t : Trade) :
    tableGet (tableSet trades k t) k = some t := by
  unfold tableGet tableSet
  rw [if_pos h]
  rw [List.find?_map]
  have hfun : ((fun p : String × Trade => decide (p.1 = k)) ∘
      fun p => if p.1 = k then (k, t) else p) =
      (fun p : String × Trade => decide (p.1 = k)) := by
    funext p
    by_cases hp : p.1 = k <;> simp [hp, Function.comp]
  rw [hfun]
  obtain ⟨p, hp⟩ := Option.isSome_iff_exists.mp h
  have hpk : p.1 = k := by simpa using List.find?_some hp
  rw [hp]
  simp [hpk]

theorem submit_invalid_state (trades : List (String × Trade)) (tradeId : String)
    (outcome : Except String String) (t : Trade)
    (hget : tableGet trades tradeId = some t)
    (hst : ¬ t.status = "awaiting_signature") :
    submitSignedTransaction trades tradeId outcome =
      (.error ("Trade is not awaiting signature (status: " ++ t.status ++ ")"),
       trades) := by
  unfold submitSignedTransaction
  rw [hget]
  simp only
  rw [if_neg hst]

/-- C3: `submitSignedTransaction(tradeId, signedTx)` fails with the
  not-found error when the id is absent, fails with the invalid-state
  error when the stored trade's status is not `awaiting_signature`, and on
  relay success appends a `bundle_sent` step, sets the status to
  `submitted`, stores the bundle id, and returns the trade id and bundle
  id; consequently a second call on the same trade fails with the
  invalid-state error (status `submitted`). -/
theorem submit_signed_transaction_contract
    (trades : List (String × Trade)) (tradeId : String)
    (outcome outcome' : Except String String) :
    (tableGet trades tradeId = none →
        submitSignedTransaction trades tradeId outcome =
          (.error "Trade not found", trades))
    ∧ (∀ t : Trade, tableGet trades tradeId = some t →
        t.status ≠ "awaiting_signature" →
        submitSignedTransaction trades tradeId outcome =
          (.error ("Trade is not awaiting signature (status: " ++ t.status ++ ")"),
           trades))
    ∧ (∀ (t : Trade) (uuid : String), tableGet trades tradeId = some t →
        t.status = "awaiting_signature" → outcome = .ok uuid →
        (submitSignedTransaction trades tradeId outcome).1 =
          .ok { success := true, tradeId := tradeId, bundleId := uuid }
        ∧ ∃ t' : Trade,
            tableGet (submitSignedTransaction trades tradeId outcome).2 tradeId =
              some t'
            ∧ t'.status = "submitted"
            ∧ t'.bundleId = some uuid
            ∧ t'.steps = t.steps ++ [⟨"bundle_sent", "success", [("uuid", uuid)]⟩])
    ∧ (∀ (t : Trade) (uuid : String), tableGet trades tradeId = some t →
        t.status = "awaiting_signature" → outcome = .ok uuid →
        (submitSignedTransaction
            (submitSignedTransaction trades tradeId outcome).2 tradeId outcome').1 =
          .error "Trade is not awaiting signature (status: submitted)") := by
  have hok : ∀ (t : Trade) (uuid : String), tableGet trades tradeId = some t →
      t.status = "awaiting_signature" → outcome = .ok uuid →
      (submitSignedTransaction trades tradeId outcome).1 =
        .ok { success := true, tradeId := tradeId, bundleId := uuid }
      ∧ tableGet (submitSignedTransaction trades tradeId outcome).2 tradeId =
          some { (addStep { t with step := some "sending_bundle" }
                    "bundle_sent" "success" [("uuid", uuid)]) with
                 status := "submitted", bundleId := some uuid } := by
    intro t uuid hget hst hout
    subst hout
    unfold submitSignedTransaction
    rw [hget]
    simp only [Option.some.injEq]
    rw [if_pos hst]
    exact ⟨rfl, tableGet_tableSet_present (tableGet_isSome_find hget) _⟩
  refine ⟨fun h => ?_, fun t hget hst => ?_, fun t uuid hget hst hout => ?_,
          fun t uuid hget hst hout => ?_⟩
  · unfold submitSignedTransaction
    rw [h]
  · exact submit_invalid_state trades tradeId outcome t hget hst
  · obtain ⟨h1, h2⟩ := hok t uuid hget hst hout
    refine ⟨h1, _, h2, rfl, rfl, ?_⟩
    simp [addStep]
  · obtain ⟨-, h2⟩ := hok t uuid hget hst hout
    have hne : ¬ ("submitted" : String) = "awaiting_signature" := by decide
    have := submit_invalid_state _ tradeId outcome' _ h2 hne
    rw [this]
    rfl

/-- C3 witness: the theorem applied to the empty table and to a concrete
  one-trade table in `awaiting_signature`, submitted twice. -/
theorem submit_signed_transaction_contract_witness :
    submitSignedTransaction [] "zzz" (.ok "b") = (.error "Trade not found", [])
    ∧ (submitSignedTransaction
        [("t1", { id := "t1", type := "buy", status := "awaiting_signature"
                , inputMint := "i", outputMint := "o", amount := 5
                , walletPubkey := "w", steps := [] })] "t1" (.ok "bundle-1")).1 =
      .ok { success := true, tradeId := "t1", bundleId := "bundle-1" }
    ∧ (submitSignedTransaction
        (submitSignedTransaction
          [("t1", { id := "t1", type := "buy", status := "awaiting_signature"
                  , inputMint := "i", outputMint := "o", amount := 5
                  , walletPubkey := "w", steps := [] })] "t1" (.ok "bundle-1")).2
        "t1" (.ok "b2")).1 =
      .error "Trade is not awaiting signature (status: submitted)" :=
  ⟨(submit_signed_transaction_contract [] "zzz" (.ok "b") (.ok "b")).1 rfl,
   ((submit_signed_transaction_contract
      [("t1", { id := "t1", type := "buy", status := "awaiting_signature"
              , inputMint := "i", outputMint := "o", amount := 5
              , walletPubkey := "w", steps := [] })] "t1"
      (.ok "bundle-1") (.ok "b2")).2.2.1
      { id := "t1", type := "buy", status := "awaiting_signature"
      , inputMint := "i", outputMint := "o", amount := 5
      , walletPubkey := "w", steps := [] } "bundle-1" rfl rfl rfl).1,
   (submit_signed_transaction_contract
      [("t1", { id := "t1", type := "buy", status := "awaiting_signature"
              , inputMint := "i", outputMint := "o", amount := 5
              , walletPubkey := "w", steps := [] })] "t1"
      (.ok "bundle-1") (.ok "b2")).2.2.2
      { id := "t1", type := "buy", status := "awaiting_signature"
      , inputMint := "i", outputMint := "o", amount := 5
      , walletPubkey := "w", steps := [] } "bundle-1" rfl rfl rfl⟩

/-! ## Claim C4 — failure postcondition of the orchestrators -/

theorem executeBuy_error_spec (p : BuyParams) (id : String) (env : TradeEnv)
    (msg : String) :
    ((executeBuy p id env).1 = .error msg ↔
      tradeThrow p.signedTransaction env = some msg)
    ∧ ((executeBuy p id env).1 = .error msg →
        (executeBuy p id env).2.status = "failed"
        ∧ (executeBuy p id env).2.error = some msg
        ∧ (executeBuy p id env).2.steps.getLast? =
            some ⟨"error", "failed", [("message", msg)]⟩) := by
  unfold executeBuy tradeThrow
  cases hfb : fetchBlockhash env with
  | error e =>
    simp [applyCatch, addStep, List.getLast?_concat, eq_comm]
  | ok v =>
    obtain ⟨⟨bh, hgt⟩, src⟩ := v
    cases hq : env.quote with
    | error e =>
      simp [applyCatch, addStep, List.getLast?_concat, eq_comm]
    | ok q =>
      cases hsw : env.swapTx with
      | error e =>
        simp [applyCatch, addStep, List.getLast?_concat, eq_comm]
      | ok s =>
        cases hsg : p.signedTransaction with
        | none => simp
        | some sg =>
          cases hb : env.bundle with
          | ok uuid => simp
          | error m =>
            simp [applyCatch, addStep, List.getLast?_concat, eq_comm]

theorem executeSell_error_spec (p : SellParams) (id : String) (env : TradeEnv)
    (msg : String) :
    ((executeSell p id env).1 = .error msg ↔
      tradeThrow p.signedTransaction env = some msg)
    ∧ ((executeSell p id env).1 = .error msg →
        (executeSell p id env).2.status = "failed"
        ∧ (executeSell p id env).2.error = some msg
        ∧ (executeSell p id env).2.steps.getLast? =
            some ⟨"error", "failed", [("message", msg)]⟩) := by
  unfold executeSell tradeThrow
  cases hfb : fetchBlockhash env with
  | error e =>
    simp [applyCatch, addStep, List.getLast?_concat, eq_comm]
  | ok v =>
    obtain ⟨⟨bh, hgt⟩, src⟩ := v
    cases hq : env.quote with
    | error e =>
      simp [applyCatch, addStep, List.getLast?_concat, eq_comm]
    | ok q =>
      cases hsw : env.swapTx with
      | error e =>
        simp [applyCatch, addStep, List.getLast?_concat, eq_comm]
      | ok s =>
        cases hsg : p.signedTransaction with
        | none => simp
        | some sg =>
          cases hb : env.bundle with
          | ok uuid => simp
          | error m =>
            simp [applyCatch, addStep, List.getLast?_concat, eq_comm]

/-- C4: an `executeBuy`/`executeSell` run raises an error exactly when one
  of its steps throws (blockhash fetch with both providers failing, quote,
  swap build, or — when a pre-signed transaction was supplied — the bundle
  submission), and whenever it raises, the stored trade ends with status
  `failed`, the error message stored in its `error` field, and a final
  `error`/`failed` step holding that message in its step log. -/
theorem orchestrator_failure_postcondition (bp : BuyParams) (sp : SellParams)
    (id : String) (env : TradeEnv) (msg : String) :
    ((executeBuy bp id env).1 = .error msg ↔
      tradeThrow bp.signedTransaction env = some msg)
    ∧ ((executeBuy bp id env).1 = .error msg →
        (executeBuy bp id env).2.status = "failed"
        ∧ (executeBuy bp id env).2.error = some msg
        ∧ (executeBuy bp id env).2.steps.getLast? =
            some ⟨"error", "failed", [("message", msg)]⟩)
    ∧ ((executeSell sp id env).1 = .error msg ↔
      tradeThrow sp.signedTransaction env = some msg)
    ∧ ((executeSell sp id env).1 = .error msg →
        (executeSell sp id env).2.status = "failed"
        ∧ (executeSell sp id env).2.error = some msg
        ∧ (executeSell sp id env).2.steps.getLast? =
            some ⟨"error", "failed", [("message", msg)]⟩) :=
  ⟨(executeBuy_error_spec bp id env msg).1,
   (executeBuy_error_spec bp id env msg).2,
   (executeSell_error_spec sp id env msg).1,
   (executeSell_error_spec sp id env msg).2⟩

/-- C4 witness: the theorem applied to a run whose quote step fails. -/
theorem orchestrator_failure_postcondition_witness :
    (executeBuy { outputMint := "m", amountLamports := 10, walletPubkey := "w" }
        "t1" ⟨.ok ("bh", 10), .ok ("bh2", 11), .error "quote down",
              .ok ⟨some "tx"⟩, .ok "u", 0⟩).2.status = "failed"
    ∧ (executeBuy { outputMint := "m", amountLamports := 10, walletPubkey := "w" }
        "t1" ⟨.ok ("bh", 10), .ok ("bh2", 11), .error "quote down",
              .ok ⟨some "tx"⟩, .ok "u", 0⟩).2.error = some "quote down"
    ∧ (executeSell { inputMint := "m", amountTokens := 10, walletPubkey := "w" }
        "t2" ⟨.ok ("bh", 10), .ok ("bh2", 11), .error "quote down",
              .ok ⟨some "tx"⟩, .ok "u", 0⟩).2.status = "failed" :=
  ⟨((orchestrator_failure_postcondition
      { outputMint := "m", amountLamports := 10, walletPubkey := "w" }
      { inputMint := "m", amountTokens := 10, walletPubkey := "w" } "t1"
      ⟨.ok ("bh", 10), .ok ("bh2", 11), .error "quote down",
       .ok ⟨some "tx"⟩, .ok "u", 0⟩ "quote down").2.1 rfl).1,
   ((orchestrator_failure_postcondition
      { outputMint := "m", amountLamports := 10, walletPubkey := "w" }
      { inputMint := "m", amountTokens := 10, walletPubkey := "w" } "t1"
      ⟨.ok ("bh", 10), .ok ("bh2", 11), .error "quote down",
       .ok ⟨some "tx"⟩, .ok "u", 0⟩ "quote down").2.1 rfl).2.1,
   ((orchestrator_failure_postcondition
      { outputMint := "m", amountLamports := 10, walletPubkey := "w" }
      { inputMint := "m", amountTokens := 10, walletPubkey := "w" } "t2"
      ⟨.ok ("bh", 10), .ok ("bh2", 11), .error "quote down",
       .ok ⟨some "tx"⟩, .ok "u", 0⟩ "quote down").2.2.2 rfl).1⟩

/-! ## Claim C8 — awaiting-signature result -/

theorem getRandomTipAccount_mem (r : Nat) :
    getRandomTipAccount r ∈ JITO_TIP_ACCOUNTS := by
  unfold getRandomTipAccount
  have h5 : JITO_TIP_ACCOUNTS.length = 5 := rfl
  rw [h5]
  have hlt : r % 5 < 5 := Nat.mod_lt _ (by decide)
  rcases (by omega :
      r % 5 = 0 ∨ r % 5 = 1 ∨ r % 5 = 2 ∨ r % 5 = 3 ∨ r % 5 = 4) with
    h | h | h | h | h <;> rw [h] <;> decide

/-- C8: when no signed transaction is supplied and the blockhash (with
  fallback), quote and build-tx steps succeed, both orchestrators store
  the trade with status `awaiting_signature` and resolve with
  `success: true`, status `awaiting_signature`, the unsigned swap
  transaction, the blockhash and stringified last-valid block height, the
  echoed quote, a tip account drawn from the fixed 5-account pool, and the
  requested tip amount. -/
theorem awaiting_signature_result (bp : BuyParams) (sp : SellParams)
    (id : String) (env : TradeEnv) (bh : String) (hgt : Nat) (src : String)
    (q : Quote) (s : SwapResult)
    (hbsig : bp.signedTransaction = none) (hssig : sp.signedTransaction = none)
    (hfb : fetchBlockhash env = .ok ((bh, hgt), src))
    (hq : env.quote = .ok q) (hs : env.swapTx = .ok s) :
    (executeBuy bp id env).1 = .ok
        { success := true, tradeId := id, status := some "awaiting_signature"
        , swapTransaction := s.swapTransaction, blockhash := some bh
        , lastValidBlockHeight := some (toString hgt), quote := some q
        , tipAccount := some (getRandomTipAccount env.tipRand)
        , tipLamports := some bp.tipLamports }
    ∧ (executeBuy bp id env).2.status = "awaiting_signature"
    ∧ (executeSell sp id env).1 = .ok
        { success := true, tradeId := id, status := some "awaiting_signature"
        , swapTransaction := s.swapTransaction, blockhash := some bh
        , lastValidBlockHeight := some (toString hgt), quote := some q
        , tipAccount := some (getRandomTipAccount env.tipRand)
        , tipLamports := some sp.tipLamports }
    ∧ (executeSell sp id env).2.status = "awaiting_signature"
    ∧ getRandomTipAccount env.tipRand ∈ JITO_TIP_ACCOUNTS := by
  refine ⟨?_, ?_, ?_, ?_, getRandomTipAccount_mem env.tipRand⟩
  · simp [executeBuy, hfb, hq, hs, hbsig]
  · simp [executeBuy, hfb, hq, hs, hbsig]
  · simp [executeSell, hfb, hq, hs, hssig]
  · simp [executeSell, hfb, hq, hs, hssig]

/-- C8 witness: the theorem applied to a concrete all-success run without
  a pre-signed transaction (streaming blockhash succeeds). -/
theorem awaiting_signature_result_witness :
    (executeBuy { outputMint := "m", amountLamports := 10, walletPubkey := "w" }
        "t1" ⟨.ok ("BH", 42), .error "down", .ok ⟨"1000", "2000", "0.1"⟩,
              .ok ⟨some "TX"⟩, .ok "uu", 7⟩).2.status = "awaiting_signature"
    ∧ (executeSell { inputMint := "m", amountTokens := 10, walletPubkey := "w" }
        "t1" ⟨.ok ("BH", 42), .error "down", .ok ⟨"1000", "2000", "0.1"⟩,
              .ok ⟨some "TX"⟩, .ok "uu", 7⟩).2.status = "awaiting_signature"
    ∧ getRandomTipAccount 7 ∈ JITO_TIP_ACCOUNTS :=
  ⟨((awaiting_signature_result
      { outputMint := "m", amountLamports := 10, walletPubkey := "w" }
      { inputMint := "m", amountTokens := 10, walletPubkey := "w" } "t1"
      ⟨.ok ("BH", 42), .error "down", .ok ⟨"1000", "2000", "0.1"⟩,
       .ok ⟨some "TX"⟩, .ok "uu", 7⟩ "BH" 42 "grpc" ⟨"1000", "2000", "0.1"⟩
      ⟨some "TX"⟩ rfl rfl rfl rfl rfl).2.1),
   ((awaiting_signature_result
      { outputMint := "m", amountLamports := 10, walletPubkey := "w" }
      { inputMint := "m", amountTokens := 10, walletPubkey := "w" } "t1"
      ⟨.ok ("BH", 42), .error "down", .ok ⟨"1000", "2000", "0.1"⟩,
       .ok ⟨some "TX"⟩, .ok "uu", 7⟩ "BH" 42 "grpc" ⟨"1000", "2000", "0.1"⟩
      ⟨some "TX"⟩ rfl rfl rfl rfl rfl).2.2.2.1),
   ((awaiting_signature_result
      { outputMint := "m", amountLamports := 10, walletPubkey := "w" }
      { inputMint := "m", amountTokens := 10, walletPubkey := "w" } "t1"
      ⟨.ok ("BH", 42), .error "down", .ok ⟨"1000", "2000", "0.1"⟩,
       .ok ⟨some "TX"⟩, .ok "uu", 7⟩ "BH" 42 "grpc" ⟨"1000", "2000", "0.1"⟩
      ⟨some "TX"⟩ rfl rfl rfl rfl rfl).2.2.2.2)⟩

/-! ## Claim C9 — /send-txs success semantics -/

/-- C9: for both /send-txs handlers, the top-level `success` field is true
  iff at least one per-transaction send succeeded, and the `results`
  array reports the outcomes positionally, one entry per input
  transaction. -/
theorem send_txs_success_iff_any (outcomes : List (Except String String))
    (duals : List ((Except String String) × Option (Except String String))) :
    ((sendTxsResponse outcomes).success = true ↔
      ∃ r ∈ (sendTxsResponse outcomes).results, r.success = true)
    ∧ (sendTxsResponse outcomes).results.length = outcomes.length
    ∧ (∀ i : Nat, (sendTxsResponse outcomes).results[i]? = (outcomes[i]?).map sendOne)
    ∧ ((sendTxsDualResponse duals).success = true ↔
      ∃ r ∈ (sendTxsDualResponse duals).results, r.success = true)
    ∧ (sendTxsDualResponse duals).results.length = duals.length
    ∧ (∀ i : Nat, (sendTxsDualResponse duals).results[i]? =
        (duals[i]?).map fun o => sendOneDual o.1 o.2) := by
  refine ⟨?_, ?_, fun i => ?_, ?_, ?_, fun i => ?_⟩
  · simp [sendTxsResponse, List.any_eq_true]
  · simp [sendTxsResponse]
  · simp [sendTxsResponse, List.getElem?_map]
  · simp [sendTxsDualResponse, List.any_eq_true]
  · simp [sendTxsDualResponse]
  · simp [sendTxsDualResponse, List.getElem?_map]

end Proxy
